import Mathlib

/-!
# Verification of the nortsur-bot inbound-message pipeline

Shallow embedding of `src/main.py` (WhatsApp webhook bot): the duplicate
filter over recent message ids, the greeting-keyword check, the order-text
parser, the product-code detector, the order-placement fallback over alias
paths, and the per-message webhook handling with the `__NO_CLIENTE__`
sentinel.  Python strings are modelled as `List Char`; ASCII case mapping
is used (all case-sensitive comparisons in the program are over ASCII
letters); Python whitespace is modelled as the six ASCII whitespace
characters; line breaks are modelled as `'\n'`.  Backend and transport
collaborators are modelled as an explicit environment of response
functions; a raised exception is modelled as `Except.error ()`.

Parts of the specified design that are not present in `src/` (the admin
command parser and the greeted-sender set of the unified final-stage
design) are modelled from the spec; those definitions are marked
`Modelled from the spec:`.
-/

abbrev Str : Type := List Char

/-- ASCII lower-casing of one character (`str.lower` restricted to ASCII,
which covers every case-sensitive comparison made by the program). -/
def lowerChar (c : Char) : Char :=
  if 'A' ≤ c ∧ c ≤ 'Z' then Char.ofNat (c.toNat + 32) else c

/-- ASCII upper-casing of one character (`str.upper` restricted to ASCII). -/
def upperChar (c : Char) : Char :=
  if 'a' ≤ c ∧ c ≤ 'z' then Char.ofNat (c.toNat - 32) else c

/-- Python `\s` / `str.strip` whitespace (ASCII part). -/
def is_space (c : Char) : Bool :=
  c = ' ' || c = '\t' || c = '\n' || c = '\r' || c = '\x0b' || c = '\x0c'

/-- `str.strip()`: drop whitespace from both ends. -/
def trimL (l : Str) : Str :=
  ((l.dropWhile is_space).reverse.dropWhile is_space).reverse

/-- Value of one ASCII digit. -/
def digit_val (c : Char) : Nat := c.toNat - '0'.toNat

/-- Base-10 value of a digit string (Python `int`). -/
def digits_to_nat (l : Str) : Nat :=
  l.foldl (fun a c => a * 10 + digit_val c) 0

/-- `str.isdigit()` (ASCII digits): nonempty and all digits. -/
def py_isdigit (l : Str) : Bool := !l.isEmpty && l.all Char.isDigit

/-- Python `needle in hay` substring test. -/
def listContains : Str → Str → Bool
  | [], needle => needle.isEmpty
  | c :: t, needle => needle.isPrefixOf (c :: t) || listContains t needle

/-- `str.splitlines()` with line breaks modelled as `'\n'`:
no trailing empty line, `splitlinesL [] = []`. -/
def splitlinesL : Str → List Str
  | [] => []
  | c :: cs =>
    if c = '\n' then [] :: splitlinesL cs
    else
      match splitlinesL cs with
      | [] => [[c]]
      | h :: t => (c :: h) :: t

/-- `str.split()` (no argument): whitespace-run separated words, no empties. -/
def pyWords (l : Str) : List Str :=
  (l.splitOnP is_space).filter (fun w => !w.isEmpty)

/-! ## Duplicate filter (`src/main.py` lines 34-45)

`PROCESSED_MESSAGES: deque[str] = deque(maxlen=1000)` is modelled as a
`List Str` whose head is the oldest entry; `deque.append` with a `maxlen`
drops from the front when full. -/

def PROCESSED_MESSAGES_MAXLEN : Nat := 1000

/-- `deque.append` on a deque with `maxlen = cap`. -/
def deque_push (cap : Nat) (st : List α) (i : α) : List α :=
  let st2 := st ++ [i]
  if cap < st2.length then st2.drop (st2.length - cap) else st2

/-- `is_duplicate_message` (lines 37-45): returns the boolean result and the
deque after the call. `if not message_id` covers both an absent id and an
empty one. -/
def is_duplicate_message (st : List Str) (message_id : Option Str) :
    Bool × List Str :=
  match message_id with
  | none => (false, st)
  | some i =>
    if i.isEmpty then (false, st)
    else if i ∈ st then (true, st)
    else (false, deque_push PROCESSED_MESSAGES_MAXLEN st i)

/-- Iterated insertion through `is_duplicate_message` (the reachable states
of `PROCESSED_MESSAGES` under a sequence of fresh webhook message ids). -/
def procesar_ids (st : List Str) (ids : List Str) : List Str :=
  ids.foldl (fun s i => (is_duplicate_message s (some i)).2) st

/-! ## Business helpers (`src/main.py` lines 135-198) -/

/-- `CODIGO_REGEX = ^[A-Z]{2}\d{3}$` applied to a whole token. -/
def es_codigo (t : Str) : Bool :=
  match t with
  | [a, b, c, d, e] =>
    a.isUpper && b.isUpper && c.isDigit && d.isDigit && e.isDigit
  | _ => false

/-- `normalize_wa_phone` (lines 141-150): keep digits, then the last 10. -/
def normalize_wa_phone (wa_phone : Str) : Str :=
  let digits := wa_phone.filter Char.isDigit
  if 10 < digits.length then digits.drop (digits.length - 10) else digits

/-- `contiene_codigos` (lines 153-161): upper-case, split on `[,\s\n]+`,
strip each token and test the code regex.  `re.split` on a run-pattern and
`splitOnP` on single separators differ only in empty tokens, which never
match the code regex. -/
def contiene_codigos (text : Str) : Bool :=
  ((text.map upperChar).splitOnP (fun c => c = ',' || is_space c)).any
    (fun tok => es_codigo (trimL tok))

/-- An order line item (`{"codigo": ..., "cantidad": ...}`). -/
structure Item where
  codigo : Str
  cantidad : Int
deriving DecidableEq

/-- `tok.lower().replace("x", "")` (after lower-casing no `'X'` remains, so
removing `'x'` removes both cases). -/
def tok_clean (tok : Str) : Str :=
  (tok.map lowerChar).filter (fun c => c ≠ 'x')

/-- The quantity scan of `parse_items_from_text` (lines 189-194): first
token whose cleaned form is all digits gives the quantity, default 1. -/
def buscar_cantidad : List Str → Int
  | [] => 1
  | tok :: rest =>
    if py_isdigit (tok_clean tok) then (digits_to_nat (tok_clean tok) : Int)
    else buscar_cantidad rest

/-- Raw entries of `parse_items_from_text` (lines 176-179): split lines,
split each line on commas, strip, keep nonempty. -/
def partes_brutas (text : Str) : List Str :=
  (splitlinesL text).flatMap
    (fun linea => ((linea.splitOn ',').map trimL).filter (fun p => !p.isEmpty))

/-- One loop body of `parse_items_from_text` (lines 181-196). -/
def entry_item (parte : Str) : Option Item :=
  match pyWords parte with
  | [] => none
  | t :: ts => some ⟨(trimL t).map upperChar, buscar_cantidad ts⟩

/-- `parse_items_from_text` (lines 164-198). -/
def parse_items_from_text (text : Str) : List Item :=
  (partes_brutas text).filterMap entry_item

/-! ## Canned reply texts (`src/main.py` lines 26-27 and 252-306) -/

def WEB_URL : Str := "https://nortsur.com.ar".toList

def INSTAGRAM : Str := "@distribuidora_nort_sur".toList

/-- `mensaje_formato_inicial` (lines 252-265). -/
def mensaje_formato_inicial : Str :=
  ("No pude entender el pedido 😕\n\n"
    ++ "Usá este formato, por ejemplo:\n"
    ++ " • CB001 x1\n"
    ++ " • CB001 x2, CB004 x1\n"
    ++ " • combo pancho doble x1\n\n"
    ++ "Si querés ver el catálogo completo:\n"
    ++ " 🌐 Web: https://nortsur.com.ar\n"
    ++ " 📸 Instagram: @distribuidora_nort_sur").toList

/-- `mensaje_bienvenida` with `es_cliente=True` (lines 274-284). -/
def mensaje_bienvenida_cliente (nombre : Str) : Str :=
  "Hola ".toList ++ nombre
    ++ (", soy el asistente de pedidos de *Nortsur*.\n\n"
        ++ "Podés hacer tu pedido mandando el *código* o la *descripción* "
        ++ "del producto o combo que querés.\n"
        ++ "Ejemplos:\n"
        ++ " • CB001 x2\n"
        ++ " • combo pancho doble x1\n").toList

/-- `mensaje_bienvenida` with `es_cliente=False` (lines 287-299). -/
def mensaje_bienvenida_generica : Str :=
  ("Hola, soy el asistente de pedidos de *Nortsur*.\n\n"
    ++ "Si ya sos cliente, podés hacer tu pedido mandando el *código* o la "
    ++ "*descripción* del producto/combos.\n"
    ++ "Ejemplos:\n"
    ++ " • CB001 x2\n"
    ++ " • combo pancho doble x1\n\n"
    ++ "Te dejo algunos productos destacados 👇\n\n"
    ++ "Si todavía no sos cliente, podés ver nuestros productos en:\n"
    ++ " Web: https://nortsur.com.ar\n"
    ++ " Instagram: @distribuidora_nort_sur\n\n"
    ++ "Después envianos tu *nombre*, *dirección* y *zona* para darte de alta.\n").toList

/-- `mensaje_error_generico` (lines 302-306). -/
def mensaje_error_generico : Str :=
  ("Tuvimos un error al registrar tu pedido 😕\n"
    ++ "Por favor, intentá de nuevo en unos minutos o avisá al vendedor.").toList

/-- The "nothing matched" reply of the free-text branch (lines 375-383). -/
def mensaje_sin_coincidencias : Str :=
  ("No encontré ningún producto que coincida con tu mensaje 😕\n\n"
    ++ "Si querés ver opciones y combos destacados, podés escribir *Hola* "
    ++ "y te muestro un resumen con imágenes.\n\n"
    ++ "También podés ver todos los productos en:\n"
    ++ "🌐 Web: https://nortsur.com.ar\n"
    ++ "📸 Instagram: @distribuidora_nort_sur\n\n"
    ++ "O mandame el código del producto (por ejemplo: CB001 x1).").toList

/-! ## Backend collaborators as an environment

The backend HTTP calls of `src/main.py` are modelled as response functions;
`Except.error ()` stands for a raised exception at the corresponding call
site. -/

/-- A client record as used by the greeting branch: the `"nombre"` field of
the JSON, absent modelled as `none` (`cliente.get("nombre")`). -/
structure Cliente where
  nombre : Option Str
deriving DecidableEq

/-- A product record from `/bot/productos/buscar` as used by the free-text
branch (`codigo`, `nombre` defaulting to empty, optional `presentacion`). -/
structure Producto where
  codigo : Str
  nombre : Str
  presentacion : Option Str
deriving DecidableEq

/-- The decoded JSON of a successful order-creation response:
the truthiness of `data.get("ok")` and the optional `mensaje_respuesta`. -/
structure PedidoData where
  ok : Bool
  mensaje_respuesta : Option Str
deriving DecidableEq

/-- Outcome of one `POST` to an order-creation path: a network error
(`httpx.RequestError`), or a status code with — when the status is 200 —
the decoded body (`none` models a body `resp.json()` fails to decode). -/
inductive PostResult where
  | netError : PostResult
  | http : Nat → Option PedidoData → PostResult
deriving DecidableEq

/-- The JSON payload of the order-creation `POST` (lines 412-416). -/
structure Payload where
  wa_phone : Str
  observaciones : Str
  items : List Item
deriving DecidableEq

/-- The environment of external collaborators: configuration presence, the
client lookup (by normalized phone), the product search, the order-creation
`POST` (by path and payload) and the `IMGS_NO_CLIENTE` url list loaded at
startup. -/
structure Env where
  apiConfigured : Bool
  buscar_cliente : Str → Except Unit (Option Cliente)
  buscar_productos : Str → Except Unit (List Producto)
  post_pedido : Str → Payload → PostResult
  imgs_no_cliente : List Str

/-! ## Order placement (`src/main.py` lines 411-456) -/

def posibles_paths : List Str :=
  ["/bot/pedidos/from-whatsapp".toList,
   "/bot/pedidos/from-whatsapp/".toList,
   "/pedidos/from-whatsapp".toList,
   "/pedidos/from-whatsapp/".toList]

/-- The alias-path loop (lines 427-447): 200 accepts, 404/405 and network
errors move on to the next path, any other 4xx/5xx raises
(`resp.raise_for_status()`), a non-error status other than 200 falls
through to the next path. -/
def try_paths (env : Env) (payload : Payload) : List Str → Except Unit (Option PedidoData)
  | [] => Except.ok none
  | p :: rest =>
    match env.post_pedido p payload with
    | PostResult.netError => try_paths env payload rest
    | PostResult.http s d =>
      if s = 200 then
        match d with
        | some data => Except.ok (some data)
        | none => Except.error ()
      else if s = 404 ∨ s = 405 then try_paths env payload rest
      else if 400 ≤ s then Except.error ()
      else try_paths env payload rest

/-- The order-creation payload (lines 412-416). -/
def payload_pedido (wa_phone : Str) (items : List Item) : Payload :=
  ⟨wa_phone, "Pedido vía WhatsApp desde ".toList ++ wa_phone, items⟩

/-- Reply construction after the alias loop (lines 449-456): no accepted
response gives the generic failure text; `ok` falsy prefers the backend
message when nonempty; `ok` truthy returns `data["mensaje_respuesta"]`
(raising a `KeyError` when absent). -/
def registrar_pedido (env : Env) (wa_phone : Str) (items : List Item) :
    Except Unit Str :=
  match try_paths env (payload_pedido wa_phone items) posibles_paths with
  | Except.error _ => Except.error ()
  | Except.ok none => Except.ok mensaje_error_generico
  | Except.ok (some data) =>
    if data.ok then
      match data.mensaje_respuesta with
      | some m => Except.ok m
      | none => Except.error ()
    else
      Except.ok
        (match data.mensaje_respuesta with
         | some m => if m.isEmpty then mensaje_error_generico else m
         | none => mensaje_error_generico)

/-! ## Dialogue orchestration (`src/main.py` lines 312-456) -/

/-- The keyword list of the greeting check (lines 329-343), in source
order. -/
def PALABRAS_SALUDO : List Str :=
  ["hola".toList, "buenas".toList, "buen dia".toList, "buen día".toList,
   "menu".toList, "menú".toList, "productos".toList, "catálogo".toList,
   "catalogo".toList, "ayuda".toList]

/-- `any(palabra in lower for palabra in [...])` (lines 329-343). -/
def es_saludo (lower : Str) : Bool :=
  PALABRAS_SALUDO.any (fun palabra => listContains lower palabra)

/-- First run of digits in the body (`re.findall(r"\d+", ...)` first hit),
default 1 — the quantity of the single-match free-text branch
(lines 401-407). -/
def primera_cantidad : Str → Int
  | [] => 1
  | c :: cs =>
    if c.isDigit then (digits_to_nat (c :: cs.takeWhile Char.isDigit) : Int)
    else primera_cantidad cs

/-- The sentinel marking a greeting reply to a non-client (line 359). -/
def SENTINEL : Str := "__NO_CLIENTE__".toList

/-- The greeting branch (lines 344-359): personalized welcome when the
client lookup yields a nonempty name, otherwise the sentinel-prefixed
generic welcome; lookup exceptions are swallowed. -/
def respuesta_saludo (env : Env) (wa_phone : Str) : Str :=
  let nombre_cliente : Str :=
    match env.buscar_cliente (normalize_wa_phone wa_phone) with
    | Except.error _ => []
    | Except.ok none => []
    | Except.ok (some c) => trimL (c.nombre.getD [])
  if !nombre_cliente.isEmpty then mensaje_bienvenida_cliente nombre_cliente
  else SENTINEL ++ mensaje_bienvenida_generica

/-- The free-text branch (lines 367-409): search failure gives the generic
error text, no match gives the guidance text, several matches list the
candidates, a single match places a one-item order. -/
def respuesta_descripcion (env : Env) (wa_phone text_body : Str) :
    Except Unit Str :=
  match env.buscar_productos text_body with
  | Except.error _ => Except.ok mensaje_error_generico
  | Except.ok productos =>
    match productos with
    | [] => Except.ok mensaje_sin_coincidencias
    | [p] =>
      registrar_pedido env wa_phone [⟨p.codigo, primera_cantidad text_body⟩]
    | ps =>
      Except.ok
        (("Encontré varios productos que coinciden con tu descripción:\n\n").toList
          ++ List.intercalate ("\n".toList) (ps.map linea_producto)
          ++ ("\n\nPor favor, respondé con el *código* del que querés (por ejemplo: CB001 x2).").toList)
where
  /-- One candidate line (lines 387-391). -/
  linea_producto (p : Producto) : Str :=
    let base := trimL ("- ".toList ++ p.codigo ++ " ".toList ++ p.nombre)
    match p.presentacion with
    | some pres => if !pres.isEmpty then base ++ " (".toList ++ pres ++ ")".toList else base
    | none => base

/-- `enviar_pedido_a_nortsur` (lines 312-456). -/
def enviar_pedido_a_nortsur (env : Env) (wa_phone text_body0 : Str) :
    Except Unit Str :=
  if !env.apiConfigured then Except.error ()
  else
    let text_body := trimL text_body0
    if text_body.isEmpty then Except.ok mensaje_formato_inicial
    else
      let lower := text_body.map lowerChar
      if es_saludo lower then Except.ok (respuesta_saludo env wa_phone)
      else if contiene_codigos text_body then
        let items := parse_items_from_text text_body
        if items.isEmpty then Except.ok mensaje_formato_inicial
        else registrar_pedido env wa_phone items
      else respuesta_descripcion env wa_phone text_body

/-! ## Webhook per-message handling (`src/main.py` lines 481-548) -/

/-- One outbound send attempt (text or image with caption). -/
inductive Send where
  | text : Str → Str → Send
  | image : Str → Str → Str → Send
deriving DecidableEq

def CAPTION_IMG : Str := "Producto destacado Nortsur".toList

/-- Lines 525-546: sentinel detection and stripping, the text send, then
the image sends when flagged and the image list is nonempty. -/
def armar_envios (imgs : List Str) (wa_phone respuesta : Str) : List Send :=
  let flag := SENTINEL.isPrefixOf respuesta
  let cuerpo := if flag then respuesta.drop SENTINEL.length else respuesta
  Send.text wa_phone cuerpo ::
    (if flag && !imgs.isEmpty then
      imgs.map (fun url => Send.image wa_phone url CAPTION_IMG)
    else [])

/-- One inbound message object of the webhook payload: optional `id`,
`type`, `from` and `text.body`. -/
structure WaMessage where
  id : Option Str
  tipo : Option Str
  sender : Option Str
  text_body : Option Str
deriving DecidableEq

/-- The body of the per-message loop of `whatsapp_webhook` (lines 496-546):
dedup check first, then the text-only and sender guards, then the
orchestrator (exceptions replaced by the generic error text), then the
send assembly.  Returns the dedup deque after the message and the sends
attempted for it. -/
def handle_message (env : Env) (st : List Str) (m : WaMessage) :
    List Str × List Send :=
  let r := is_duplicate_message st m.id
  if r.1 then (r.2, [])
  else if m.tipo ≠ some "text".toList then (r.2, [])
  else
    match m.sender with
    | none => (r.2, [])
    | some wa_phone =>
      if wa_phone.isEmpty then (r.2, [])
      else
        let text_body := trimL (m.text_body.getD [])
        let respuesta :=
          match enviar_pedido_a_nortsur env wa_phone text_body with
          | Except.ok resp => resp
          | Except.error _ => mensaje_error_generico
        (r.2, armar_envios env.imgs_no_cliente wa_phone respuesta)

/-! ## Spec-modelled final-stage components

`spec.md` describes the repository's unified final-stage design, which
includes an admin command parser (§4.4), an `AdminCommand` category in the
classifier (§4.2) and a `GreetedSet` (§3, §4.5).  None of these exist in
`src/main.py`; they are modelled here from the spec's words. -/

/-- Modelled from the spec: the admin verbs (§3, §4.4); `parse_admin` is
absent from `src/`. -/
inductive AdminVerb where
  | confirm | deliver | cancel | reopen | summary
deriving DecidableEq

/-- Modelled from the spec: the surface word of each admin verb (§4.4
group-1 mapping). -/
def verb_word : AdminVerb → Str
  | AdminVerb.confirm => "confirmar".toList
  | AdminVerb.deliver => "entregar".toList
  | AdminVerb.cancel => "cancelar".toList
  | AdminVerb.reopen => "reabrir".toList
  | AdminVerb.summary => "resumen".toList

/-- Modelled from the spec: an `AdminCommand`
`{verb, order_id: integer, reason: optional string}` (§3). -/
structure AdminCmd where
  verb : AdminVerb
  order_id : Nat
  reason : Option Str
deriving DecidableEq

/-- Case-insensitive prefix test: the first argument, assumed lower-case,
is compared letterwise against the ASCII-lowered second argument. -/
def ci_starts : Str → Str → Bool
  | [], _ => true
  | _ :: _, [] => false
  | c :: cs, x :: xs => lowerChar x = c && ci_starts cs xs

/-- Modelled from the spec: the verb alternation
`(confirmar|entregar|cancelar|reabrir|resumen)` of the §4.4 grammar, tried
in written order, case-insensitively, as a prefix of the remaining text. -/
def match_verb (s : Str) : Option (AdminVerb × Str) :=
  if ci_starts (verb_word AdminVerb.confirm) s then
    some (AdminVerb.confirm, s.drop (verb_word AdminVerb.confirm).length)
  else if ci_starts (verb_word AdminVerb.deliver) s then
    some (AdminVerb.deliver, s.drop (verb_word AdminVerb.deliver).length)
  else if ci_starts (verb_word AdminVerb.cancel) s then
    some (AdminVerb.cancel, s.drop (verb_word AdminVerb.cancel).length)
  else if ci_starts (verb_word AdminVerb.reopen) s then
    some (AdminVerb.reopen, s.drop (verb_word AdminVerb.reopen).length)
  else if ci_starts (verb_word AdminVerb.summary) s then
    some (AdminVerb.summary, s.drop (verb_word AdminVerb.summary).length)
  else none

/-- Modelled from the spec: `parse_admin` (§4.4), absent from `src/`.
Implements the whole-string-anchored grammar
`^\s*(confirmar|entregar|cancelar|reabrir|resumen)\s+(\d+)(?:\s+(.*))?\s*$`
(case-insensitive): leading whitespace, a verb, at least one whitespace
character, a maximal digit run as `order_id`, then either the end of the
string or a whitespace character followed by arbitrary text whose trim — if
nonempty — becomes `reason`. -/
def parse_adminSpec (body : Str) : Option AdminCmd :=
  let s1 := body.dropWhile is_space
  match match_verb s1 with
  | none => none
  | some (v, s2) =>
    match s2 with
    | [] => none
    | c :: _ =>
      if is_space c then
        let s3 := s2.dropWhile is_space
        let ds := s3.takeWhile Char.isDigit
        let s4 := s3.dropWhile Char.isDigit
        if ds.isEmpty then none
        else
          match s4 with
          | [] => some ⟨v, digits_to_nat ds, none⟩
          | c2 :: _ =>
            if is_space c2 then
              let r := trimL s4
              some ⟨v, digits_to_nat ds, if r.isEmpty then none else some r⟩
            else none
      else none

/-- The §4.4 grammar as a declarative decomposition: `body` splits as
optional whitespace, a case-insensitive verb word, mandatory whitespace, a
nonempty digit run, and a tail that is either empty or starts with a
whitespace character; `order_id` is the digit run's value and `reason` is
the tail's trim when nonempty.  (The maximality of the digit run is forced:
the tail cannot start with a digit.) -/
def adminDecomp (body : Str) (v : AdminVerb) (oid : Nat) (r : Option Str) : Prop :=
  ∃ w1 vs w2 ds t : Str,
    body = w1 ++ (vs ++ (w2 ++ (ds ++ t))) ∧
    (∀ c ∈ w1, is_space c = true) ∧
    vs.map lowerChar = verb_word v ∧
    w2 ≠ [] ∧ (∀ c ∈ w2, is_space c = true) ∧
    ds ≠ [] ∧ (∀ c ∈ ds, c.isDigit = true) ∧
    (t = [] ∨ ∃ c t2, t = c :: t2 ∧ is_space c = true) ∧
    oid = digits_to_nat ds ∧
    r = (if trimL t = [] then none else some (trimL t))

/-- Modelled from the spec: the classifier keyword set (§4.2 step 3),
which in the unified design also contains `"hi"` and `"hello"`. -/
def KEYWORDS_SPEC : List Str :=
  ["hola".toList, "buenas".toList, "buen dia".toList, "buen día".toList,
   "menu".toList, "menú".toList, "productos".toList, "catálogo".toList,
   "catalogo".toList, "ayuda".toList, "hi".toList, "hello".toList]

/-- Modelled from the spec: the intent categories of the unified
classifier (§4.2). -/
inductive IntentSpec where
  | empty | adminCommand | greeting | codedOrder | freeTextOrder
deriving DecidableEq

/-- Modelled from the spec: `classify` (§4.2), first match wins:
empty trim, admin grammar, greeting keyword, code-shaped token, free text. -/
def classify_spec (body : Str) : IntentSpec :=
  if (trimL body).isEmpty then IntentSpec.empty
  else if (parse_adminSpec body).isSome then IntentSpec.adminCommand
  else if KEYWORDS_SPEC.any (fun k => listContains (body.map lowerChar) k) then
    IntentSpec.greeting
  else if contiene_codigos body then IntentSpec.codedOrder
  else IntentSpec.freeTextOrder

/-- Modelled from the spec: the orchestrator's mutable state (§3):
the dedup deque and the `GreetedSet` of senders already welcomed. -/
structure SpecState where
  dedup : List Str
  greeted : List Str
deriving DecidableEq

/-- Set insertion into the `GreetedSet`. -/
def mark_greeted (sender : Str) (g : List Str) : List Str :=
  if sender ∈ g then g else sender :: g

/-- Modelled from the spec: an inbound message (§3 `InboundMessage`). -/
structure SpecMsg where
  id : Option Str
  isText : Bool
  sender : Str
  body : Str
deriving DecidableEq

/-- Modelled from the spec: the backend capabilities the unified
orchestrator consumes (§6). -/
structure SpecEnv where
  find_client : Str → Option Str
  catalog_images : List Str
  order_summary : Nat → Str
  coded_reply : Str → Str
  free_reply : Str → Str
  guidance : Str

/-- Modelled from the spec: the Dialogue Orchestrator `handle` (§4.5),
restricted to its state effects and sends: duplicate → nothing; non-text or
empty body → one guidance text, mark greeted; Greeting → welcome (with the
image sends for an unknown sender) and mark greeted; the admin, coded-order
and free-text branches reply without touching the `GreetedSet`.  Only this
function mutates the `greeted` component. -/
def handle_spec (env : SpecEnv) (st : SpecState) (m : SpecMsg) :
    SpecState × List Send :=
  let r := is_duplicate_message st.dedup m.id
  let st1 : SpecState := ⟨r.2, st.greeted⟩
  if r.1 then (st1, [])
  else if !m.isText || (trimL m.body).isEmpty then
    (⟨st1.dedup, mark_greeted m.sender st1.greeted⟩,
     [Send.text m.sender env.guidance])
  else
    match classify_spec m.body with
    | IntentSpec.empty => (st1, [Send.text m.sender env.guidance])
    | IntentSpec.adminCommand =>
      match parse_adminSpec m.body with
      | some cmd => (st1, [Send.text m.sender (env.order_summary cmd.order_id)])
      | none => (st1, [Send.text m.sender env.guidance])
    | IntentSpec.greeting =>
      (⟨st1.dedup, mark_greeted m.sender st1.greeted⟩,
       match env.find_client m.sender with
       | some name =>
         [Send.text m.sender ("Hola ".toList ++ name)]
       | none =>
         Send.text m.sender "Hola".toList ::
           env.catalog_images.map (fun u => Send.image m.sender u CAPTION_IMG))
    | IntentSpec.codedOrder => (st1, [Send.text m.sender (env.coded_reply m.body)])
    | IntentSpec.freeTextOrder => (st1, [Send.text m.sender (env.free_reply m.body)])

/-! ## Helper lemmas -/

lemma mem_deque_push {α : Type} (cap : Nat) (hcap : 0 < cap) (st : List α)
    (i : α) : i ∈ deque_push cap st i := by
  unfold deque_push
  by_cases h : cap < (st ++ [i]).length
  · simp only [if_pos h]
    have hk : (st ++ [i]).length - cap ≤ st.length := by
      simp only [List.length_append, List.length_singleton] at *
      omega
    rw [List.drop_append_of_le_length hk]
    simp
  · simp only [if_neg h]
    simp

lemma length_deque_push_le {α : Type} (cap : Nat) (st : List α) (i : α)
    (h : st.length ≤ cap) : (deque_push cap st i).length ≤ cap := by
  unfold deque_push
  by_cases hlt : cap < (st ++ [i]).length
  · simp only [if_pos hlt, List.length_drop]
    omega
  · simp only [if_neg hlt]
    omega

lemma is_dup_fresh (st : List Str) (i : Str) (hne : i ≠ []) (hmem : i ∉ st) :
    is_duplicate_message st (some i) =
      (false, deque_push PROCESSED_MESSAGES_MAXLEN st i) := by
  simp [is_duplicate_message, List.isEmpty_iff, hne, hmem]

lemma is_dup_seen (st : List Str) (i : Str) (hne : i ≠ []) (hmem : i ∈ st) :
    is_duplicate_message st (some i) = (true, st) := by
  simp [is_duplicate_message, List.isEmpty_iff, hne, hmem]

lemma mem_state_after_is_dup (st : List Str) (i : Str) (hne : i ≠ []) :
    i ∈ (is_duplicate_message st (some i)).2 := by
  by_cases hmem : i ∈ st
  · rw [is_dup_seen st i hne hmem]; exact hmem
  · rw [is_dup_fresh st i hne hmem]
    exact mem_deque_push _ (by norm_num [PROCESSED_MESSAGES_MAXLEN]) _ _

lemma procesar_ids_append (st : List Str) (l : List Str) (i : Str) :
    procesar_ids st (l ++ [i]) =
      (is_duplicate_message (procesar_ids st l) (some i)).2 := by
  simp [procesar_ids, List.foldl_append]

/-- State characterization: feeding distinct nonempty ids into the empty
dedup deque leaves exactly the most recent `1000` of them, oldest first. -/
lemma procesar_ids_drop (l : List Str) (hnd : l.Nodup)
    (hne : ∀ i ∈ l, i ≠ []) :
    procesar_ids [] l = l.drop (l.length - PROCESSED_MESSAGES_MAXLEN) := by
  induction l using List.reverseRecOn with
  | nil => rfl
  | append_singleton l i ih =>
    have hnd' : l.Nodup := (List.nodup_append.mp hnd).1
    have hne' : ∀ j ∈ l, j ≠ [] := fun j hj => hne j (by simp [hj])
    have hi_ne : i ≠ [] := hne i (by simp)
    have hi_nin : i ∉ l := by
      intro hmem
      rcases List.nodup_append.mp hnd with ⟨-, -, hdisj⟩
      exact hdisj hmem (by simp)
    have hstate := ih hnd' hne'
    have hi_nin_st : i ∉ procesar_ids [] l := by
      rw [hstate]; intro h; exact hi_nin (List.mem_of_mem_drop h)
    have hi_nin_st' : i ∉ l.drop (l.length - PROCESSED_MESSAGES_MAXLEN) := by
      rw [← hstate]; exact hi_nin_st
    rw [procesar_ids_append, hstate, is_dup_fresh _ _ hi_ne hi_nin_st']
    simp only []
    unfold deque_push
    set cap := PROCESSED_MESSAGES_MAXLEN with hcap
    have hcap_pos : 0 < cap := by norm_num [hcap, PROCESSED_MESSAGES_MAXLEN]
    by_cases hlen : l.length < cap
    · have h1 : l.length - cap = 0 := by omega
      rw [h1]
      simp only [List.drop_zero]
      have h2 : ¬ cap < (l ++ [i]).length := by
        simp only [List.length_append, List.length_singleton]; omega
      rw [if_neg h2]
      have h3 : (l ++ [i]).length - cap = 0 := by
        simp only [List.length_append, List.length_singleton]; omega
      rw [h3]
      simp
    · push_neg at hlen
      have hdroplen : (l.drop (l.length - cap)).length = cap := by
        simp only [List.length_drop]; omega
      have hcond : cap < (l.drop (l.length - cap) ++ [i]).length := by
        simp only [List.length_append, List.length_singleton, hdroplen]; omega
      rw [if_pos hcond]
      have hk : (l.drop (l.length - cap) ++ [i]).length - cap = 1 := by
        simp only [List.length_append, List.length_singleton, hdroplen]; omega
      rw [hk]
      have h1le : 1 ≤ (l.drop (l.length - cap)).length := by omega
      rw [List.drop_append_of_le_length h1le, List.drop_drop]
      have hk2 : (l ++ [i]).length - cap = 1 + (l.length - cap) := by
        simp only [List.length_append, List.length_singleton]; omega
      rw [hk2]
      have hk3 : 1 + (l.length - cap) ≤ l.length := by omega
      rw [List.drop_append_of_le_length hk3, Nat.add_comm]

lemma is_dup_length_le (st : List Str) (mid : Option Str)
    (h : st.length ≤ PROCESSED_MESSAGES_MAXLEN) :
    ((is_duplicate_message st mid).2).length ≤ PROCESSED_MESSAGES_MAXLEN := by
  match mid with
  | none => exact h
  | some i =>
    by_cases he : i.isEmpty
    · simpa [is_duplicate_message, he] using h
    · by_cases hm : i ∈ st
      · simpa [is_duplicate_message, he, hm] using h
      · simpa [is_duplicate_message, he, hm] using
          length_deque_push_le PROCESSED_MESSAGES_MAXLEN st i h

lemma procesar_ids_length_le (ids : List Str) (st : List Str)
    (h : st.length ≤ PROCESSED_MESSAGES_MAXLEN) :
    (procesar_ids st ids).length ≤ PROCESSED_MESSAGES_MAXLEN := by
  induction ids generalizing st with
  | nil => exact h
  | cons i rest ih =>
    simp only [procesar_ids, List.foldl_cons]
    exact ih _ (is_dup_length_le st (some i) h)

/-! ## Claim theorems -/

/-- **C3.** `DedupSet` behaves as a bounded FIFO set of capacity 1000:
`is_duplicate` of an absent or empty id is `false` with no state change;
a fresh nonempty id gives `false` on the first call and is inserted, so an
immediate second call gives `true`; the size never exceeds the capacity
(per step and along any run); and after inserting `capacity + 1` distinct
nonempty ids into the empty deque, the first inserted id checks as
non-duplicate again (it was evicted). -/
theorem C3_dedup_bounded_fifo :
    PROCESSED_MESSAGES_MAXLEN = 1000 ∧
    (∀ st, is_duplicate_message st none = (false, st)) ∧
    (∀ st, is_duplicate_message st (some []) = (false, st)) ∧
    (∀ st i, i ≠ [] → i ∉ st →
      is_duplicate_message st (some i) =
        (false, deque_push PROCESSED_MESSAGES_MAXLEN st i) ∧
      (is_duplicate_message ((is_duplicate_message st (some i)).2)
        (some i)).1 = true) ∧
    (∀ st mid, st.length ≤ PROCESSED_MESSAGES_MAXLEN →
      ((is_duplicate_message st mid).2).length ≤ PROCESSED_MESSAGES_MAXLEN) ∧
    (∀ st ids, st.length ≤ PROCESSED_MESSAGES_MAXLEN →
      (procesar_ids st ids).length ≤ PROCESSED_MESSAGES_MAXLEN) ∧
    (∀ i0 rest, (i0 :: rest).Nodup → (∀ j ∈ i0 :: rest, j ≠ []) →
      rest.length = PROCESSED_MESSAGES_MAXLEN →
      (is_duplicate_message (procesar_ids [] (i0 :: rest)) (some i0)).1 =
        false) := by
  refine ⟨rfl, fun _ => rfl, fun _ => rfl, ?_, ?_, ?_, ?_⟩
  · intro st i hne hnin
    refine ⟨is_dup_fresh st i hne hnin, ?_⟩
    rw [is_dup_seen _ _ hne (mem_state_after_is_dup st i hne)]
  · exact is_dup_length_le
  · exact fun st ids h => procesar_ids_length_le ids st h
  · intro i0 rest hnd hne hlen
    have hstate : procesar_ids [] (i0 :: rest) = rest := by
      rw [procesar_ids_drop _ hnd hne]
      have h1 : (i0 :: rest).length - PROCESSED_MESSAGES_MAXLEN = 1 := by
        simp [hlen]
      rw [h1, List.drop_one, List.tail_cons]
    have hne0 : i0 ≠ [] := hne i0 (by simp)
    have hnin : i0 ∉ rest := (List.nodup_cons.mp hnd).1
    rw [hstate, is_dup_fresh _ _ hne0 hnin]

/-- 1001 distinct nonempty ids: `['a']` followed by `aa`, `aaa`, ... -/
def test_rest : List Str := (List.range 1000).map (fun n => List.replicate (n + 2) 'a')

/-- Witness for C3 at concrete inputs. -/
theorem C3_dedup_bounded_fifo_witness :
    (is_duplicate_message [] (some "wamid.1".toList)).1 = false ∧
    (is_duplicate_message ((is_duplicate_message [] (some "wamid.1".toList)).2)
      (some "wamid.1".toList)).1 = true ∧
    (is_duplicate_message (procesar_ids [] (['a'] :: test_rest))
      (some ['a'])).1 = false := by
  obtain ⟨-, -, -, h4, -, -, h7⟩ := C3_dedup_bounded_fifo
  have hfresh := h4 [] ("wamid.1".toList) (by decide) (by simp)
  refine ⟨by rw [hfresh.1], hfresh.2, ?_⟩
  apply h7
  · refine List.nodup_cons.mpr ⟨?_, ?_⟩
    · intro h
      simp only [test_rest, List.mem_map, List.mem_range] at h
      obtain ⟨n, -, hn⟩ := h
      have := congrArg List.length hn
      simp at this
    · refine List.Nodup.map ?_ (List.nodup_range 1000)
      intro a b h
      have h2 := congrArg List.length h
      simpa using h2
  · intro j hj
    rcases List.mem_cons.mp hj with h | h
    · subst h; decide
    · simp only [test_rest, List.mem_map, List.mem_range] at h
      obtain ⟨n, -, hn⟩ := h
      subst hn
      simp [List.replicate_succ]
  · simp [test_rest, PROCESSED_MESSAGES_MAXLEN]

lemma handle_message_state (env : Env) (st : List Str) (m : WaMessage) :
    (handle_message env st m).1 = (is_duplicate_message st m.id).2 := by
  unfold handle_message
  dsimp only
  repeat' split
  all_goals rfl

lemma handle_message_dup (env : Env) (st : List Str) (m : WaMessage)
    (st2 : List Str) (h : is_duplicate_message st m.id = (true, st2)) :
    handle_message env st m = (st2, []) := by
  unfold handle_message
  rw [h]
  dsimp only
  rfl

/-- **C4.** Replaying a webhook delivery with the same non-empty message id
is idempotent: the duplicate check has no side effect on its `true` path,
the second handling pass emits no sends and leaves the deque unchanged, so
the sends of handling twice are exactly the sends of handling once. -/
theorem C4_replay_idempotent :
    (∀ st mid, (is_duplicate_message st mid).1 = true →
      (is_duplicate_message st mid).2 = st) ∧
    (∀ (env : Env) (st : List Str) (m : WaMessage) (i : Str),
      m.id = some i → i ≠ [] →
      handle_message env ((handle_message env st m).1) m =
        ((handle_message env st m).1, []) ∧
      (handle_message env st m).2 ++
          (handle_message env ((handle_message env st m).1) m).2 =
        (handle_message env st m).2) := by
  constructor
  · intro st mid h
    match mid with
    | none => simp [is_duplicate_message] at h
    | some i =>
      by_cases he : i.isEmpty
      · simp [is_duplicate_message, he] at h
      · by_cases hm : i ∈ st
        · simp [is_duplicate_message, he, hm]
        · simp [is_duplicate_message, he, hm] at h
  · intro env st m i hid hne
    have hstate := handle_message_state env st m
    have hmem : i ∈ (handle_message env st m).1 := by
      rw [hstate, hid]
      exact mem_state_after_is_dup st i hne
    have hdup : is_duplicate_message ((handle_message env st m).1) m.id =
        (true, (handle_message env st m).1) := by
      rw [hid]
      exact is_dup_seen _ _ hne hmem
    have hsecond := handle_message_dup env _ m _ hdup
    exact ⟨hsecond, by rw [hsecond]; simp⟩

/-- An inert environment for closed witnesses: configuration present, no
clients, empty product search, every order path answering 404, no images. -/
def env0 : Env where
  apiConfigured := true
  buscar_cliente := fun _ => Except.ok none
  buscar_productos := fun _ => Except.ok []
  post_pedido := fun _ _ => PostResult.http 404 none
  imgs_no_cliente := []

/-- A concrete inbound text message. -/
def msg_hola : WaMessage :=
  ⟨some "wamid.X".toList, some "text".toList,
   some "5491162519659".toList, some "Hola".toList⟩

/-- Witness for C4: a concrete replayed message. -/
theorem C4_replay_idempotent_witness :
    handle_message env0 ((handle_message env0 [] msg_hola).1) msg_hola =
      ((handle_message env0 [] msg_hola).1, []) ∧
    (handle_message env0 [] msg_hola).2 ++
        (handle_message env0 ((handle_message env0 [] msg_hola).1) msg_hola).2 =
      (handle_message env0 [] msg_hola).2 :=
  C4_replay_idempotent.2 env0 [] msg_hola ("wamid.X".toList) rfl (by decide)

/-- **C5.** `parse_items` splits on line breaks then commas, trims and drops
empty fragments preserving order, takes each entry's first token
upper-cased as the code, and scans the remaining tokens left-to-right
taking as quantity the first token whose lower-cased, `x`-free form is all
digits, defaulting to 1 — together with the three example evaluations. -/
theorem C5_parse_items :
    parse_items_from_text "CB004 x2, PN004 x1".toList =
      [⟨"CB004".toList, 2⟩, ⟨"PN004".toList, 1⟩] ∧
    parse_items_from_text "CB004\nPN004 x3".toList =
      [⟨"CB004".toList, 1⟩, ⟨"PN004".toList, 3⟩] ∧
    parse_items_from_text [] = [] ∧
    (∀ text, parse_items_from_text text =
      (partes_brutas text).filterMap entry_item) ∧
    (∀ parte t ts, pyWords parte = t :: ts →
      entry_item parte = some ⟨(trimL t).map upperChar, buscar_cantidad ts⟩) ∧
    (∀ parte, pyWords parte = [] → entry_item parte = none) ∧
    (∀ ts, (∀ tok ∈ ts, py_isdigit (tok_clean tok) = false) →
      buscar_cantidad ts = 1) ∧
    (∀ tok ts, py_isdigit (tok_clean tok) = true →
      buscar_cantidad (tok :: ts) = (digits_to_nat (tok_clean tok) : Int)) ∧
    (∀ tok ts, py_isdigit (tok_clean tok) = false →
      buscar_cantidad (tok :: ts) = buscar_cantidad ts) := by
  refine ⟨by decide, by decide, by decide, fun _ => rfl, ?_, ?_, ?_, ?_, ?_⟩
  · intro parte t ts h
    simp [entry_item, h]
  · intro parte h
    simp [entry_item, h]
  · intro ts h
    induction ts with
    | nil => rfl
    | cons tok rest ih =>
      rw [buscar_cantidad, if_neg (by simp [h tok (by simp)])]
      exact ih (fun tok2 h2 => h tok2 (by simp [h2]))
  · intro tok ts h
    rw [buscar_cantidad, if_pos (by simp [h])]
  · intro tok ts h
    rw [buscar_cantidad, if_neg (by simp [h])]

/-- Witness for C5 at concrete entries and token lists. -/
theorem C5_parse_items_witness :
    entry_item ("CB004 x2".toList) =
      some ⟨(trimL "CB004".toList).map upperChar, buscar_cantidad ["x2".toList]⟩ ∧
    buscar_cantidad ["abc".toList] = 1 ∧
    buscar_cantidad ["x2".toList, "9".toList] =
      (digits_to_nat (tok_clean "x2".toList) : Int) := by
  obtain ⟨-, -, -, -, h5, -, h7, h8, -⟩ := C5_parse_items
  exact ⟨h5 _ _ _ (by decide), h7 _ (by decide), h8 _ _ (by decide)⟩

/-- **C6, counterexample.** The quantity token `"-2"` is not accepted: the
entry `"CB004 -2"` parses with the default quantity 1, not with −2 as the
claim states (`"-2".isdigit()` is false because of the minus sign). -/
theorem C6_counterexample_negative_rejected :
    parse_items_from_text "CB004 -2".toList = [⟨"CB004".toList, 1⟩] ∧
    (1 : Int) ≠ -2 :=
  ⟨by decide, by decide⟩

/-- **C6, amended.** Zero is accepted as a parsed quantity (no range
validation), but a token containing a minus sign is never accepted as a
quantity: the scan skips it, so a negative-number token leaves the
default 1. -/
theorem C6_zero_accepted_negative_skipped :
    parse_items_from_text "CB004 0".toList = [⟨"CB004".toList, 0⟩] ∧
    (∀ tok ts, '-' ∈ tok →
      buscar_cantidad (tok :: ts) = buscar_cantidad ts) := by
  refine ⟨by decide, ?_⟩
  intro tok ts hmem
  have hdash : '-' ∈ tok_clean tok := by
    unfold tok_clean
    rw [List.mem_filter]
    exact ⟨List.mem_map.mpr ⟨'-', hmem, by decide⟩, by decide⟩
  have hall : (tok_clean tok).all Char.isDigit = false := by
    rw [Bool.eq_false_iff]
    intro h
    exact absurd (List.all_eq_true.mp h '-' hdash) (by decide)
  have hpd : py_isdigit (tok_clean tok) = false := by
    simp [py_isdigit, hall]
  rw [buscar_cantidad, if_neg (by simp [hpd])]

/-- Witness for the amended C6. -/
theorem C6_zero_accepted_negative_skipped_witness :
    buscar_cantidad ["-2".toList, "3".toList] = buscar_cantidad ["3".toList] :=
  C6_zero_accepted_negative_skipped.2 ("-2".toList) ["3".toList] (by decide)

/-- **C7, counterexample.** `"hello"` (and `"hi"`) are contained in the
bodies `"hello"` / `"hi there"`, yet the code's keyword check rejects both
bodies (its keyword list has no `"hi"`/`"hello"`), and `"hello"` is
actually routed to the free-text product search, answering the no-match
guidance — not a greeting. -/
theorem C7_counterexample_hi_hello :
    listContains ("hello".toList.map lowerChar) "hello".toList = true ∧
    es_saludo ("hello".toList.map lowerChar) = false ∧
    listContains ("hi there".toList.map lowerChar) "hi".toList = true ∧
    es_saludo ("hi there".toList.map lowerChar) = false ∧
    enviar_pedido_a_nortsur env0 "5491162519659".toList "hello".toList =
      Except.ok mensaje_sin_coincidencias :=
  ⟨by decide, by decide, by decide, by decide, rfl⟩

/-- **C7, amended.** The keyword set of the code is the ten-element list
without `"hi"` and `"hello"`; for every non-empty body containing one of
those ten keywords as a substring of its lower-casing, the orchestrator
takes the greeting branch. -/
theorem C7_greeting_keywords :
    PALABRAS_SALUDO =
      ["hola".toList, "buenas".toList, "buen dia".toList, "buen día".toList,
       "menu".toList, "menú".toList, "productos".toList, "catálogo".toList,
       "catalogo".toList, "ayuda".toList] ∧
    "hi".toList ∉ PALABRAS_SALUDO ∧
    "hello".toList ∉ PALABRAS_SALUDO ∧
    (∀ (env : Env) (wa_phone body : Str), env.apiConfigured = true →
      (trimL body).isEmpty = false →
      es_saludo ((trimL body).map lowerChar) = true →
      enviar_pedido_a_nortsur env wa_phone body =
        Except.ok (respuesta_saludo env wa_phone)) := by
  refine ⟨rfl, by decide, by decide, ?_⟩
  intro env wa_phone body h1 h2 h3
  simp [enviar_pedido_a_nortsur, h1, h2, h3]

/-- Witness for the amended C7: the body `"Hola!"` greets. -/
theorem C7_greeting_keywords_witness :
    enviar_pedido_a_nortsur env0 "5491162519659".toList "Hola!".toList =
      Except.ok (respuesta_saludo env0 "5491162519659".toList) :=
  C7_greeting_keywords.2.2.2 env0 _ _ rfl (by decide) (by decide)

/-- A concrete non-text inbound message. -/
def msg_imagen : WaMessage :=
  ⟨some "wamid.I".toList, some "image".toList,
   some "5491162519659".toList, none⟩

/-- **C8, counterexample.** A fresh non-text message produces zero sends —
the handler skips it silently (`continue`), it does not emit the one
guidance text the claim requires. -/
theorem C8_counterexample_nontext_silent :
    (is_duplicate_message [] msg_imagen.id).1 = false ∧
    (handle_message env0 [] msg_imagen).2 = [] :=
  ⟨by decide, rfl⟩

lemma sentinel_not_on_formato :
    SENTINEL.isPrefixOf mensaje_formato_inicial = false := by decide

/-- **C8, amended.** A non-duplicate message whose kind is not text is
skipped with no sends at all; a non-duplicate text message with a present
sender and an empty (post-trim) body gets exactly one guidance text
(`mensaje_formato_inicial`). -/
theorem C8_nontext_silent_empty_body_guidance :
    (∀ (env : Env) (st : List Str) (m : WaMessage),
      (is_duplicate_message st m.id).1 = false →
      m.tipo ≠ some "text".toList →
      (handle_message env st m).2 = []) ∧
    (∀ (env : Env) (st : List Str) (m : WaMessage) (phone : Str),
      (is_duplicate_message st m.id).1 = false →
      m.tipo = some "text".toList →
      m.sender = some phone → phone ≠ [] →
      trimL (m.text_body.getD []) = [] →
      env.apiConfigured = true →
      (handle_message env st m).2 =
        [Send.text phone mensaje_formato_inicial]) := by
  constructor
  · intro env st m hdup htipo
    replace htipo : m.tipo ≠ some ['t', 'e', 'x', 't'] := by simpa using htipo
    simp [handle_message, hdup, htipo]
  · intro env st m phone hdup htipo hsender hphone hbody hconf
    have henviar : enviar_pedido_a_nortsur env phone (trimL (m.text_body.getD [])) =
        Except.ok mensaje_formato_inicial := by
      rw [hbody]
      simp [enviar_pedido_a_nortsur, hconf, show trimL ([] : Str) = [] from rfl]
    simp [handle_message, hdup, htipo, hsender, hphone, henviar,
      armar_envios, sentinel_not_on_formato]

/-- A concrete text message whose body trims to empty. -/
def msg_vacio : WaMessage :=
  ⟨some "wamid.V".toList, some "text".toList,
   some "5491162519659".toList, some "   ".toList⟩

/-- Witness for the amended C8. -/
theorem C8_nontext_silent_empty_body_guidance_witness :
    (handle_message env0 [] msg_imagen).2 = [] ∧
    (handle_message env0 [] msg_vacio).2 =
      [Send.text ("5491162519659".toList) mensaje_formato_inicial] :=
  ⟨C8_nontext_silent_empty_body_guidance.1 env0 [] msg_imagen (by decide)
      (by decide),
   C8_nontext_silent_empty_body_guidance.2 env0 [] msg_vacio
      ("5491162519659".toList) (by decide) rfl rfl (by decide) (by decide) rfl⟩

/-- A `POST` outcome that makes the alias loop move to the next path under
the claim's description: a 404 or 405 status (network errors also continue,
as in the code). -/
def avanza_alias (r : PostResult) : Prop :=
  r = PostResult.netError ∨
    ∃ d, r = PostResult.http 404 d ∨ r = PostResult.http 405 d

lemma try_paths_skips (env : Env) (payload : Payload) (l1 l2 : List Str)
    (h : ∀ q ∈ l1, avanza_alias (env.post_pedido q payload)) :
    try_paths env payload (l1 ++ l2) = try_paths env payload l2 := by
  induction l1 with
  | nil => rfl
  | cons p rest ih =>
    have htail : ∀ q ∈ rest, avanza_alias (env.post_pedido q payload) :=
      fun q hq => h q (by simp [hq])
    rcases h p (by simp) with hne | ⟨d, hd | hd⟩
    · rw [List.cons_append, try_paths, hne]
      exact ih htail
    · rw [List.cons_append, try_paths, hd]
      simpa using ih htail
    · rw [List.cons_append, try_paths, hd]
      simpa using ih htail

/-- **C9.** Order placement: the alias list is the fixed four-path list in
preference order; skippable outcomes (404/405, network error) on a prefix
of the list leave the first 200 response accepted; an all-skippable list
yields no accepted response and the generic registration-failure reply; any
other error status (≥ 400, not 404/405) after a skippable prefix aborts the
attempt (the raised exception propagates out of `registrar_pedido`); with
an accepted response, `ok` falsy prefers a nonempty backend message and
falls back to the generic failure text, and `ok` truthy returns the backend
confirmation text verbatim. -/
theorem C9_order_placement :
    posibles_paths =
      ["/bot/pedidos/from-whatsapp".toList,
       "/bot/pedidos/from-whatsapp/".toList,
       "/pedidos/from-whatsapp".toList,
       "/pedidos/from-whatsapp/".toList] ∧
    (∀ (env : Env) (payload : Payload) (l1 : List Str) (p : Str)
        (l2 : List Str) (d : PedidoData),
      (∀ q ∈ l1, avanza_alias (env.post_pedido q payload)) →
      env.post_pedido p payload = PostResult.http 200 (some d) →
      try_paths env payload (l1 ++ p :: l2) = Except.ok (some d)) ∧
    (∀ (env : Env) (payload : Payload) (l : List Str),
      (∀ q ∈ l, avanza_alias (env.post_pedido q payload)) →
      try_paths env payload l = Except.ok none) ∧
    (∀ (env : Env) (payload : Payload) (l1 : List Str) (p : Str)
        (l2 : List Str) (s : Nat) (d : Option PedidoData),
      (∀ q ∈ l1, avanza_alias (env.post_pedido q payload)) →
      env.post_pedido p payload = PostResult.http s d →
      400 ≤ s → s ≠ 404 → s ≠ 405 →
      try_paths env payload (l1 ++ p :: l2) = Except.error ()) ∧
    (∀ (env : Env) (wa_phone : Str) (items : List Item),
      try_paths env (payload_pedido wa_phone items) posibles_paths =
        Except.ok none →
      registrar_pedido env wa_phone items = Except.ok mensaje_error_generico) ∧
    (∀ (env : Env) (wa_phone : Str) (items : List Item),
      try_paths env (payload_pedido wa_phone items) posibles_paths =
        Except.error () →
      registrar_pedido env wa_phone items = Except.error ()) ∧
    (∀ (env : Env) (wa_phone : Str) (items : List Item) (d : PedidoData)
        (m : Str),
      try_paths env (payload_pedido wa_phone items) posibles_paths =
        Except.ok (some d) →
      d.ok = false → d.mensaje_respuesta = some m → m ≠ [] →
      registrar_pedido env wa_phone items = Except.ok m) ∧
    (∀ (env : Env) (wa_phone : Str) (items : List Item) (d : PedidoData),
      try_paths env (payload_pedido wa_phone items) posibles_paths =
        Except.ok (some d) →
      d.ok = false →
      (d.mensaje_respuesta = none ∨ d.mensaje_respuesta = some []) →
      registrar_pedido env wa_phone items =
        Except.ok mensaje_error_generico) ∧
    (∀ (env : Env) (wa_phone : Str) (items : List Item) (d : PedidoData)
        (m : Str),
      try_paths env (payload_pedido wa_phone items) posibles_paths =
        Except.ok (some d) →
      d.ok = true → d.mensaje_respuesta = some m →
      registrar_pedido env wa_phone items = Except.ok m) := by
  refine ⟨rfl, ?_, ?_, ?_, ?_, ?_, ?_, ?_, ?_⟩
  · intro env payload l1 p l2 d hskip h200
    rw [try_paths_skips env payload l1 (p :: l2) hskip, try_paths, h200]
    simp
  · intro env payload l h
    have h2 := try_paths_skips env payload l [] h
    simpa using h2
  · intro env payload l1 p l2 s d hskip hpost h400 h404 h405
    rw [try_paths_skips env payload l1 (p :: l2) hskip, try_paths, hpost]
    dsimp only
    rw [if_neg (show ¬s = 200 by omega),
      if_neg (show ¬(s = 404 ∨ s = 405) by omega), if_pos h400]
  · intro env wa_phone items htry
    simp [registrar_pedido, htry]
  · intro env wa_phone items htry
    simp [registrar_pedido, htry]
  · intro env wa_phone items d m htry hok hmr hmne
    have hie : m.isEmpty = false := by
      rw [Bool.eq_false_iff]
      intro hh
      exact hmne (List.isEmpty_iff.mp hh)
    simp [registrar_pedido, htry, hok, hmr, hie]
  · intro env wa_phone items d htry hok hmr
    rcases hmr with hmr | hmr <;> simp [registrar_pedido, htry, hok, hmr]
  · intro env wa_phone items d m htry hok hmr
    simp [registrar_pedido, htry, hok, hmr]

def data_confirma : PedidoData := ⟨true, some "Pedido #12 registrado".toList⟩

def data_rechazo : PedidoData := ⟨false, some "Aún no sos cliente".toList⟩

/-- Backend answering 404 on the first alias and 200 on the second. -/
def env_alias2 : Env where
  apiConfigured := true
  buscar_cliente := fun _ => Except.ok none
  buscar_productos := fun _ => Except.ok []
  post_pedido := fun path _ =>
    if path = "/bot/pedidos/from-whatsapp/".toList then
      PostResult.http 200 (some data_confirma)
    else PostResult.http 404 none
  imgs_no_cliente := []

/-- Backend accepting immediately but reporting `ok: false`. -/
def env_rechazo : Env where
  apiConfigured := true
  buscar_cliente := fun _ => Except.ok none
  buscar_productos := fun _ => Except.ok []
  post_pedido := fun _ _ => PostResult.http 200 (some data_rechazo)
  imgs_no_cliente := []

/-- Backend failing with a 500 on every path. -/
def env_fatal : Env where
  apiConfigured := true
  buscar_cliente := fun _ => Except.ok none
  buscar_productos := fun _ => Except.ok []
  post_pedido := fun _ _ => PostResult.http 500 none
  imgs_no_cliente := []

/-- Witness for C9 at concrete environments. -/
theorem C9_order_placement_witness :
    try_paths env_alias2 (payload_pedido "549".toList [⟨"CB001".toList, 1⟩])
        (["/bot/pedidos/from-whatsapp".toList] ++
          "/bot/pedidos/from-whatsapp/".toList ::
            ["/pedidos/from-whatsapp".toList, "/pedidos/from-whatsapp/".toList]) =
      Except.ok (some data_confirma) ∧
    registrar_pedido env0 "549".toList [⟨"CB001".toList, 1⟩] =
      Except.ok mensaje_error_generico ∧
    try_paths env_fatal (payload_pedido "549".toList [⟨"CB001".toList, 1⟩])
        ([] ++ "/bot/pedidos/from-whatsapp".toList :: []) = Except.error () ∧
    registrar_pedido env_rechazo "549".toList [⟨"CB001".toList, 1⟩] =
      Except.ok ("Aún no sos cliente".toList) ∧
    registrar_pedido env_alias2 "549".toList [⟨"CB001".toList, 1⟩] =
      Except.ok ("Pedido #12 registrado".toList) := by
  obtain ⟨-, h2, -, h4, h5, -, h7, -, h9⟩ := C9_order_placement
  refine ⟨?_, ?_, ?_, ?_, ?_⟩
  · apply h2
    · intro q hq
      rw [List.mem_singleton] at hq
      subst hq
      exact Or.inr ⟨none, Or.inl rfl⟩
    · rfl
  · exact h5 env0 _ _ rfl
  · apply h4 env_fatal _ [] _ [] 500 none
    · intro q hq
      exact absurd hq (List.not_mem_nil q)
    · rfl
    · omega
    · omega
    · omega
  · exact h7 env_rechazo _ _ data_rechazo _ rfl rfl rfl (by decide)
  · exact h9 env_alias2 _ _ data_confirma _ rfl rfl rfl

lemma armar_envios_sentinel (imgs : List Str) (wa_phone r : Str)
    (hflag : SENTINEL.isPrefixOf r = true) :
    armar_envios imgs wa_phone r =
      Send.text wa_phone (r.drop SENTINEL.length) ::
        imgs.map (fun u => Send.image wa_phone u CAPTION_IMG) := by
  unfold armar_envios
  cases imgs <;> simp [hflag]

lemma armar_envios_plain (imgs : List Str) (wa_phone r : Str)
    (hflag : SENTINEL.isPrefixOf r = false) :
    armar_envios imgs wa_phone r = [Send.text wa_phone r] := by
  unfold armar_envios
  simp [hflag]

/-- Backend confirming the order with a message that happens to start with
the `__NO_CLIENTE__` sentinel, and one catalog image configured. -/
def env_sentinel : Env where
  apiConfigured := true
  buscar_cliente := fun _ => Except.ok none
  buscar_productos := fun _ => Except.ok []
  post_pedido := fun _ _ =>
    PostResult.http 200 (some ⟨true, some "__NO_CLIENTE__Pedido registrado".toList⟩)
  imgs_no_cliente := ["https://img/1.jpg".toList]

/-- A concrete coded-order text message. -/
def msg_pedido : WaMessage :=
  ⟨some "wamid.P".toList, some "text".toList,
   some "5491111111111".toList, some "CB001 x1".toList⟩

/-- **C10.** For every handled reply, catalog-image sends follow the reply
text iff the reply starts with the literal sentinel `__NO_CLIENTE__`, which
is stripped before sending; the greeting reply to an unknown client does
start with the sentinel; and a backend-supplied order-confirmation message
beginning with the sentinel likewise gets stripped and triggers the image
sends (end-to-end on a concrete coded order). -/
theorem C10_sentinel_controls_images :
    (∀ (imgs : List Str) (wa_phone r : Str),
      SENTINEL.isPrefixOf r = true →
      armar_envios imgs wa_phone r =
        Send.text wa_phone (r.drop SENTINEL.length) ::
          imgs.map (fun u => Send.image wa_phone u CAPTION_IMG)) ∧
    (∀ (imgs : List Str) (wa_phone r : Str),
      SENTINEL.isPrefixOf r = false →
      armar_envios imgs wa_phone r = [Send.text wa_phone r]) ∧
    (∀ x : Str, (SENTINEL ++ x).drop SENTINEL.length = x) ∧
    (∀ (env : Env) (wa_phone : Str),
      env.buscar_cliente (normalize_wa_phone wa_phone) = Except.ok none →
      SENTINEL.isPrefixOf (respuesta_saludo env wa_phone) = true) ∧
    (∀ (imgs : List Str) (wa_phone r : Str), imgs ≠ [] →
      ((∃ s ∈ armar_envios imgs wa_phone r, ∃ dst u c, s = Send.image dst u c) ↔
        SENTINEL.isPrefixOf r = true)) ∧
    handle_message env_sentinel [] msg_pedido =
      (["wamid.P".toList],
       [Send.text "5491111111111".toList "Pedido registrado".toList,
        Send.image "5491111111111".toList "https://img/1.jpg".toList
          CAPTION_IMG]) := by
  refine ⟨armar_envios_sentinel, armar_envios_plain, ?_, ?_, ?_, ?_⟩
  · intro x
    exact List.drop_left SENTINEL x
  · intro env wa_phone hnone
    unfold respuesta_saludo
    rw [hnone]
    simp
  · intro imgs wa_phone r hne
    constructor
    · rintro ⟨s, hs, dst, u, c, hsim⟩
      by_contra hflag
      rw [Bool.not_eq_true] at hflag
      rw [armar_envios_plain imgs wa_phone r hflag] at hs
      rw [List.mem_singleton] at hs
      subst hs
      simp at hsim
    · intro hflag
      rw [armar_envios_sentinel imgs wa_phone r hflag]
      obtain ⟨u, us, rfl⟩ := List.exists_cons_of_ne_nil hne
      exact ⟨Send.image wa_phone u CAPTION_IMG, by simp,
        wa_phone, u, CAPTION_IMG, rfl⟩
  · rfl

/-- Witness for C10 at concrete replies. -/
theorem C10_sentinel_controls_images_witness :
    armar_envios ["https://img/1.jpg".toList] "549".toList
        ("__NO_CLIENTE__Hola".toList) =
      Send.text "549".toList (("__NO_CLIENTE__Hola".toList).drop SENTINEL.length) ::
        ["https://img/1.jpg".toList].map
          (fun u => Send.image "549".toList u CAPTION_IMG) ∧
    armar_envios ["https://img/1.jpg".toList] "549".toList "Hola".toList =
      [Send.text "549".toList "Hola".toList] ∧
    SENTINEL.isPrefixOf (respuesta_saludo env0 "549".toList) = true := by
  obtain ⟨h1, h2, -, h4, -, -⟩ := C10_sentinel_controls_images
  exact ⟨h1 _ _ _ (by decide), h2 _ _ _ (by decide), h4 env0 _ rfl⟩

/-! ## Lemmas for the admin-grammar parser -/

lemma bool_ne_true {b : Bool} (h : b = false) : ¬b = true := by simp [h]

lemma lowerChar_of_space {c : Char} (h : is_space c = true) : lowerChar c = c := by
  have h2 : c = ' ' ∨ c = '\t' ∨ c = '\n' ∨ c = '\x0d' ∨ c = '\x0b' ∨ c = '\x0c' := by
    simpa [is_space, or_assoc] using h
  rcases h2 with h | h | h | h | h | h <;> subst h <;> decide

lemma not_space_of_lowerChar_eq {c d : Char} (hd : is_space d = false)
    (h : lowerChar c = d) : is_space c = false := by
  rw [Bool.eq_false_iff]
  intro hs
  have hc := lowerChar_of_space hs
  rw [hc] at h
  rw [← h] at hd
  rw [hs] at hd
  exact Bool.noConfusion hd

lemma not_space_of_digit {c : Char} (h : c.isDigit = true) : is_space c = false := by
  rw [Bool.eq_false_iff]
  intro hs
  have h2 : c = ' ' ∨ c = '\t' ∨ c = '\n' ∨ c = '\x0d' ∨ c = '\x0b' ∨ c = '\x0c' := by
    simpa [is_space, or_assoc] using hs
  rcases h2 with h2 | h2 | h2 | h2 | h2 | h2 <;> subst h2 <;> exact absurd h (by decide)

lemma not_digit_of_space {c : Char} (h : is_space c = true) : c.isDigit = false := by
  rw [Bool.eq_false_iff]
  intro hd
  rw [not_space_of_digit hd] at h
  exact Bool.noConfusion h

lemma dropWhile_append_of_all (p : Char → Bool) (w1 rest : Str)
    (hw : ∀ c ∈ w1, p c = true) :
    (w1 ++ rest).dropWhile p = rest.dropWhile p := by
  induction w1 with
  | nil => rfl
  | cons c w ih =>
    rw [List.cons_append, List.dropWhile_cons, if_pos (hw c (by simp))]
    exact ih (fun c2 h2 => hw c2 (by simp [h2]))

lemma dropWhile_cons_of_neg (p : Char → Bool) (c : Char) (rest : Str)
    (h : p c = false) : (c :: rest).dropWhile p = c :: rest := by
  rw [List.dropWhile_cons, if_neg (bool_ne_true h)]

lemma takeWhile_append_of_all (p : Char → Bool) (ds t : Str)
    (hd : ∀ c ∈ ds, p c = true)
    (ht : t = [] ∨ ∃ c t2, t = c :: t2 ∧ p c = false) :
    (ds ++ t).takeWhile p = ds ∧ (ds ++ t).dropWhile p = t := by
  induction ds with
  | nil =>
    rcases ht with rfl | ⟨c, t2, rfl, hc⟩
    · exact ⟨rfl, rfl⟩
    · simp only [List.nil_append]
      rw [List.takeWhile_cons, if_neg (bool_ne_true hc)]
      exact ⟨rfl, dropWhile_cons_of_neg p c t2 hc⟩
  | cons c ds' ih =>
    have hc : p c = true := hd c (by simp)
    obtain ⟨ih1, ih2⟩ := ih (fun c2 h2 => hd c2 (by simp [h2]))
    constructor
    · rw [List.cons_append, List.takeWhile_cons, if_pos hc, ih1]
    · rw [List.cons_append, List.dropWhile_cons, if_pos hc, ih2]

lemma ci_starts_self (vs r : Str) :
    ci_starts (vs.map lowerChar) (vs ++ r) = true := by
  induction vs with
  | nil => rfl
  | cons c cs ih =>
    simp only [List.map_cons, List.cons_append, ci_starts]
    simp [ih]

lemma drop_word_of_map_eq (vs r w : Str) (h : vs.map lowerChar = w) :
    (vs ++ r).drop w.length = r := by
  have hlen : vs.length = w.length := by rw [← h]; simp
  rw [← hlen, List.drop_left]

lemma ci_starts_imp_take (w : Str) : ∀ s : Str, ci_starts w s = true →
    (s.take w.length).map lowerChar = w := by
  induction w with
  | nil => intro s _; simp
  | cons c cs ih =>
    intro s h
    cases s with
    | nil => exact absurd h (by simp [ci_starts])
    | cons x xs =>
      simp only [ci_starts, Bool.and_eq_true] at h
      obtain ⟨h1, h2⟩ := h
      simp only [List.length_cons, List.take_succ_cons, List.map_cons, ih xs h2]
      rw [show lowerChar x = c from by simpa using h1]

lemma ci_starts_false_of_take_ne (w' w vs r : Str)
    (hlow : vs.map lowerChar = w)
    (hne : w.take (min w'.length w.length) ≠ w'.take (min w'.length w.length)) :
    ci_starts w' (vs ++ r) = false := by
  rw [Bool.eq_false_iff]
  intro h
  apply hne
  have htake := ci_starts_imp_take w' (vs ++ r) h
  have hvslen : vs.length = w.length := by rw [← hlow]; simp
  have hn_le_w' : min w'.length w.length ≤ w'.length := Nat.min_le_left _ _
  have hn_le_vs : min w'.length w.length ≤ vs.length := by
    rw [hvslen]; exact Nat.min_le_right _ _
  have h2 := congrArg (List.take (min w'.length w.length)) htake
  rw [← List.map_take, List.take_take, Nat.min_eq_left hn_le_w',
    List.take_append_of_le_length hn_le_vs, List.map_take, hlow] at h2
  exact h2

lemma match_verb_of_decomp (v : AdminVerb) (vs r : Str)
    (hlow : vs.map lowerChar = verb_word v) :
    match_verb (vs ++ r) = some (v, r) := by
  have hself : ci_starts (verb_word v) (vs ++ r) = true := by
    rw [← hlow]; exact ci_starts_self vs r
  cases v with
  | confirm =>
    unfold match_verb
    rw [if_pos hself, drop_word_of_map_eq vs r _ hlow]
  | deliver =>
    unfold match_verb
    rw [if_neg (bool_ne_true (ci_starts_false_of_take_ne
        (verb_word AdminVerb.confirm) _ vs r hlow (by decide))),
      if_pos hself, drop_word_of_map_eq vs r _ hlow]
  | cancel =>
    unfold match_verb
    rw [if_neg (bool_ne_true (ci_starts_false_of_take_ne
        (verb_word AdminVerb.confirm) _ vs r hlow (by decide))),
      if_neg (bool_ne_true (ci_starts_false_of_take_ne
        (verb_word AdminVerb.deliver) _ vs r hlow (by decide))),
      if_pos hself, drop_word_of_map_eq vs r _ hlow]
  | reopen =>
    unfold match_verb
    rw [if_neg (bool_ne_true (ci_starts_false_of_take_ne
        (verb_word AdminVerb.confirm) _ vs r hlow (by decide))),
      if_neg (bool_ne_true (ci_starts_false_of_take_ne
        (verb_word AdminVerb.deliver) _ vs r hlow (by decide))),
      if_neg (bool_ne_true (ci_starts_false_of_take_ne
        (verb_word AdminVerb.cancel) _ vs r hlow (by decide))),
      if_pos hself, drop_word_of_map_eq vs r _ hlow]
  | summary =>
    unfold match_verb
    rw [if_neg (bool_ne_true (ci_starts_false_of_take_ne
        (verb_word AdminVerb.confirm) _ vs r hlow (by decide))),
      if_neg (bool_ne_true (ci_starts_false_of_take_ne
        (verb_word AdminVerb.deliver) _ vs r hlow (by decide))),
      if_neg (bool_ne_true (ci_starts_false_of_take_ne
        (verb_word AdminVerb.cancel) _ vs r hlow (by decide))),
      if_neg (bool_ne_true (ci_starts_false_of_take_ne
        (verb_word AdminVerb.reopen) _ vs r hlow (by decide))),
      if_pos hself, drop_word_of_map_eq vs r _ hlow]

lemma parse_admin_complete (body : Str) (v : AdminVerb) (oid : Nat)
    (r : Option Str) (h : adminDecomp body v oid r) :
    parse_adminSpec body = some ⟨v, oid, r⟩ := by
  obtain ⟨w1, vs, w2, ds, t, hbody, hw1, hvs, hw2ne, hw2, hdsne, hds, ht, hoid, hr⟩ := h
  obtain ⟨d0, wrest, hvw, hd0sp⟩ :
      ∃ d0 wrest, verb_word v = d0 :: wrest ∧ is_space d0 = false := by
    cases v <;> exact ⟨_, _, rfl, by decide⟩
  obtain ⟨c0, vs', rfl⟩ : ∃ c0 vs', vs = c0 :: vs' := by
    cases vs with
    | nil => rw [hvw] at hvs; exact absurd hvs (by simp)
    | cons a b => exact ⟨a, b, rfl⟩
  have hc0low : lowerChar c0 = d0 := by
    rw [hvw] at hvs
    simp only [List.map_cons, List.cons.injEq] at hvs
    exact hvs.1
  have hc0 : is_space c0 = false := not_space_of_lowerChar_eq hd0sp hc0low
  obtain ⟨c1, w2', rfl⟩ : ∃ c1 w2', w2 = c1 :: w2' := by
    cases w2 with
    | nil => exact absurd rfl hw2ne
    | cons a b => exact ⟨a, b, rfl⟩
  have hc1 : is_space c1 = true := hw2 c1 (by simp)
  obtain ⟨e0, ds', rfl⟩ : ∃ e0 ds', ds = e0 :: ds' := by
    cases ds with
    | nil => exact absurd rfl hdsne
    | cons a b => exact ⟨a, b, rfl⟩
  have he0 : e0.isDigit = true := hds e0 (by simp)
  have he0sp : is_space e0 = false := not_space_of_digit he0
  have ht' : t = [] ∨ ∃ c t2, t = c :: t2 ∧ Char.isDigit c = false := by
    rcases ht with rfl | ⟨c, t2, rfl, hc⟩
    · exact Or.inl rfl
    · exact Or.inr ⟨c, t2, rfl, not_digit_of_space hc⟩
  have htake := takeWhile_append_of_all Char.isDigit (e0 :: ds') t hds ht'
  subst hbody
  have hdrop1 : ((w1 ++ ((c0 :: vs') ++ ((c1 :: w2') ++ ((e0 :: ds') ++ t)))).dropWhile
      is_space) = (c0 :: vs') ++ ((c1 :: w2') ++ ((e0 :: ds') ++ t)) := by
    rw [dropWhile_append_of_all is_space w1 _ hw1, List.cons_append,
      dropWhile_cons_of_neg _ _ _ hc0, ← List.cons_append]
  have hdrop2 : (((c1 :: w2') ++ ((e0 :: ds') ++ t)).dropWhile is_space) =
      (e0 :: ds') ++ t := by
    rw [dropWhile_append_of_all is_space (c1 :: w2') _ hw2, List.cons_append,
      dropWhile_cons_of_neg _ _ _ he0sp, ← List.cons_append]
  unfold parse_adminSpec
  dsimp only
  rw [hdrop1, match_verb_of_decomp v (c0 :: vs') _ hvs]
  dsimp only
  rw [List.cons_append]
  dsimp only
  rw [if_pos hc1, ← List.cons_append, hdrop2, htake.1, htake.2]
  rw [if_neg (by simp)]
  rcases ht with rfl | ⟨c2, t2, rfl, hc2⟩
  · dsimp only
    rw [hoid, hr]
    rfl
  · dsimp only
    rw [if_pos hc2, hoid, hr]
    by_cases htr : trimL (c2 :: t2) = []
    · rw [if_pos htr, if_pos (by simp [htr])]
    · rw [if_neg htr, if_neg (by simp [List.isEmpty_iff, htr])]

lemma match_verb_sound (s : Str) (v : AdminVerb) (s2 : Str)
    (h : match_verb s = some (v, s2)) :
    (s.take (verb_word v).length).map lowerChar = verb_word v ∧
      s = s.take (verb_word v).length ++ s2 := by
  unfold match_verb at h
  by_cases h1 : ci_starts (verb_word AdminVerb.confirm) s = true
  · rw [if_pos h1] at h
    simp only [Option.some.injEq, Prod.mk.injEq] at h
    obtain ⟨rfl, rfl⟩ := h
    exact ⟨ci_starts_imp_take _ s h1, (List.take_append_drop _ s).symm⟩
  · rw [if_neg h1] at h
    by_cases h2 : ci_starts (verb_word AdminVerb.deliver) s = true
    · rw [if_pos h2] at h
      simp only [Option.some.injEq, Prod.mk.injEq] at h
      obtain ⟨rfl, rfl⟩ := h
      exact ⟨ci_starts_imp_take _ s h2, (List.take_append_drop _ s).symm⟩
    · rw [if_neg h2] at h
      by_cases h3 : ci_starts (verb_word AdminVerb.cancel) s = true
      · rw [if_pos h3] at h
        simp only [Option.some.injEq, Prod.mk.injEq] at h
        obtain ⟨rfl, rfl⟩ := h
        exact ⟨ci_starts_imp_take _ s h3, (List.take_append_drop _ s).symm⟩
      · rw [if_neg h3] at h
        by_cases h4 : ci_starts (verb_word AdminVerb.reopen) s = true
        · rw [if_pos h4] at h
          simp only [Option.some.injEq, Prod.mk.injEq] at h
          obtain ⟨rfl, rfl⟩ := h
          exact ⟨ci_starts_imp_take _ s h4, (List.take_append_drop _ s).symm⟩
        · rw [if_neg h4] at h
          by_cases h5 : ci_starts (verb_word AdminVerb.summary) s = true
          · rw [if_pos h5] at h
            simp only [Option.some.injEq, Prod.mk.injEq] at h
            obtain ⟨rfl, rfl⟩ := h
            exact ⟨ci_starts_imp_take _ s h5, (List.take_append_drop _ s).symm⟩
          · rw [if_neg h5] at h
            exact absurd h (by simp)

lemma parse_admin_sound (body : Str) (c : AdminCmd)
    (h : parse_adminSpec body = some c) :
    adminDecomp body c.verb c.order_id c.reason := by
  unfold parse_adminSpec at h
  dsimp only at h
  cases hmv : match_verb (body.dropWhile is_space) with
  | none => rw [hmv] at h; exact absurd h (by simp)
  | some vr =>
    obtain ⟨v, s2⟩ := vr
    rw [hmv] at h
    dsimp only at h
    cases s2 with
    | nil => exact absurd h (by simp)
    | cons c1 s2' =>
      dsimp only at h
      by_cases hc1 : is_space c1 = true
      · rw [if_pos hc1] at h
        by_cases hds :
            (((c1 :: s2').dropWhile is_space).takeWhile Char.isDigit).isEmpty = true
        · rw [if_pos hds] at h
          exact absurd h (by simp)
        · rw [if_neg hds] at h
          obtain ⟨hvs_map, hs_split⟩ := match_verb_sound _ v _ hmv
          have hbody : body =
              body.takeWhile is_space ++
                ((body.dropWhile is_space).take (verb_word v).length ++
                  ((c1 :: s2').takeWhile is_space ++
                    ((c1 :: s2').dropWhile is_space))) := by
            conv_lhs =>
              rw [← List.takeWhile_append_dropWhile is_space body, hs_split,
                ← List.takeWhile_append_dropWhile is_space (c1 :: s2')]
          have hw1 : ∀ c2 ∈ body.takeWhile is_space, is_space c2 = true :=
            fun c2 hc2 => List.mem_takeWhile_imp hc2
          have hw2ne : (c1 :: s2').takeWhile is_space ≠ [] := by
            rw [List.takeWhile_cons, if_pos hc1]
            simp
          have hw2 : ∀ c2 ∈ (c1 :: s2').takeWhile is_space, is_space c2 = true :=
            fun c2 hc2 => List.mem_takeWhile_imp hc2
          have hdsne :
              ((c1 :: s2').dropWhile is_space).takeWhile Char.isDigit ≠ [] := by
            intro hnil
            exact hds (by rw [hnil]; rfl)
          have hdsall : ∀ c2 ∈ ((c1 :: s2').dropWhile is_space).takeWhile
              Char.isDigit, c2.isDigit = true :=
            fun c2 hc2 => List.mem_takeWhile_imp hc2
          cases hs4 : ((c1 :: s2').dropWhile is_space).dropWhile Char.isDigit with
          | nil =>
            rw [hs4] at h
            dsimp only at h
            simp only [Option.some.injEq] at h
            subst h
            refine ⟨body.takeWhile is_space,
              (body.dropWhile is_space).take (verb_word v).length,
              (c1 :: s2').takeWhile is_space,
              ((c1 :: s2').dropWhile is_space).takeWhile Char.isDigit,
              [], ?_, hw1, hvs_map, hw2ne, hw2, hdsne, hdsall,
              Or.inl rfl, rfl, ?_⟩
            · conv_lhs =>
                rw [hbody,
                  ← List.takeWhile_append_dropWhile Char.isDigit
                    ((c1 :: s2').dropWhile is_space),
                  hs4]
            · rfl
          | cons c2 t2 =>
            rw [hs4] at h
            dsimp only at h
            by_cases hc2 : is_space c2 = true
            · rw [if_pos hc2] at h
              simp only [Option.some.injEq] at h
              subst h
              refine ⟨body.takeWhile is_space,
                (body.dropWhile is_space).take (verb_word v).length,
                (c1 :: s2').takeWhile is_space,
                ((c1 :: s2').dropWhile is_space).takeWhile Char.isDigit,
                c2 :: t2, ?_, hw1, hvs_map, hw2ne, hw2, hdsne, hdsall,
                Or.inr ⟨c2, t2, rfl, hc2⟩, rfl, ?_⟩
              · conv_lhs =>
                  rw [hbody,
                    ← List.takeWhile_append_dropWhile Char.isDigit
                      ((c1 :: s2').dropWhile is_space),
                    hs4]
              · dsimp only
                simp only [List.isEmpty_iff]
            · rw [if_neg hc2] at h
              exact absurd h (by simp)
      · rw [if_neg hc1] at h
        exact absurd h (by simp)

lemma trim_ne_nil_of_mem_not_space {body : Str} {c : Char} (hc : c ∈ body)
    (hns : is_space c = false) : trimL body ≠ [] := by
  intro htr
  unfold trimL at htr
  have h1 : ∀ x ∈ (body.dropWhile is_space).reverse, is_space x = true :=
    List.dropWhile_eq_nil_iff.mp (List.reverse_eq_nil_iff.mp htr)
  have h2 : ∀ x ∈ body.dropWhile is_space, is_space x = true :=
    fun x hx => h1 x (List.mem_reverse.mpr hx)
  have h3 : ∀ x ∈ body, is_space x = true := by
    intro x hx
    rw [← List.takeWhile_append_dropWhile is_space body] at hx
    rcases List.mem_append.mp hx with hx | hx
    · exact List.mem_takeWhile_imp hx
    · exact h2 x hx
  rw [h3 c hc] at hns
  exact Bool.noConfusion hns

lemma classify_spec_of_parse_admin (body : Str) (c : AdminCmd)
    (h : parse_adminSpec body = some c) :
    classify_spec body = IntentSpec.adminCommand := by
  obtain ⟨w1, vs, w2, ds, t, hbody, hw1, hvs, -, -, -, -, -, -, -⟩ :=
    parse_admin_sound body c h
  obtain ⟨d0, wrest, hvw, hd0sp⟩ :
      ∃ d0 wrest, verb_word c.verb = d0 :: wrest ∧ is_space d0 = false := by
    cases c.verb <;> exact ⟨_, _, rfl, by decide⟩
  obtain ⟨c0, vs', rfl⟩ : ∃ c0 vs', vs = c0 :: vs' := by
    cases vs with
    | nil => rw [hvw] at hvs; exact absurd hvs (by simp)
    | cons a b => exact ⟨a, b, rfl⟩
  have hc0low : lowerChar c0 = d0 := by
    rw [hvw] at hvs
    simp only [List.map_cons, List.cons.injEq] at hvs
    exact hvs.1
  have hc0 : is_space c0 = false := not_space_of_lowerChar_eq hd0sp hc0low
  have hmem : c0 ∈ body := by
    rw [hbody]; simp
  have htr := trim_ne_nil_of_mem_not_space hmem hc0
  unfold classify_spec
  rw [if_neg (by simp [List.isEmpty_iff, htr]), if_pos (by simp [h])]

lemma classify_spec_of_no_admin (body : Str)
    (h : parse_adminSpec body = none) :
    classify_spec body ≠ IntentSpec.adminCommand := by
  unfold classify_spec
  by_cases he : (trimL body).isEmpty = true
  · rw [if_pos he]; decide
  · rw [if_neg he, if_neg (by simp [h])]
    split
    · decide
    · split
      · decide
      · decide

/-- **C1.** Modelled from the spec (the admin parser is absent from
`src/`): a body matches the §4.4 grammar exactly when it decomposes as
optional whitespace, a case-insensitive verb, whitespace, a digit run, and
an empty or whitespace-led tail — in that case `parse_admin` returns the
mapped verb, the digit run's value as `order_id` and the tail's trim as
`reason` when nonempty; any other body parses to `none` and the classifier
then does not answer `AdminCommand`; a parsed body classifies as
`AdminCommand`; together with the spec's test vectors. -/
theorem C1_admin_grammar :
    (∀ (body : Str) (v : AdminVerb) (oid : Nat) (r : Option Str),
      adminDecomp body v oid r → parse_adminSpec body = some ⟨v, oid, r⟩) ∧
    (∀ (body : Str) (c : AdminCmd), parse_adminSpec body = some c →
      adminDecomp body c.verb c.order_id c.reason) ∧
    (∀ (body : Str) (c : AdminCmd), parse_adminSpec body = some c →
      classify_spec body = IntentSpec.adminCommand) ∧
    (∀ body : Str, parse_adminSpec body = none →
      classify_spec body ≠ IntentSpec.adminCommand) ∧
    parse_adminSpec "cancelar 7 cliente se arrepintió".toList =
      some ⟨AdminVerb.cancel, 7, some "cliente se arrepintió".toList⟩ ∧
    parse_adminSpec "cancelar 7".toList = some ⟨AdminVerb.cancel, 7, none⟩ ∧
    parse_adminSpec "foo 7".toList = none ∧
    parse_adminSpec "resumen 7".toList = some ⟨AdminVerb.summary, 7, none⟩ ∧
    classify_spec "resumen 7".toList = IntentSpec.adminCommand :=
  ⟨parse_admin_complete, parse_admin_sound, classify_spec_of_parse_admin,
   classify_spec_of_no_admin, by decide, by decide, by decide, by decide,
   by decide⟩

/-- Witness for C1: an upper-case admin command parsed through the
grammar-decomposition direction. -/
theorem C1_admin_grammar_witness :
    parse_adminSpec "RESUMEN 12".toList =
      some ⟨AdminVerb.summary, 12, none⟩ ∧
    classify_spec "RESUMEN 12".toList = IntentSpec.adminCommand := by
  constructor
  · exact C1_admin_grammar.1 _ AdminVerb.summary 12 none
      ⟨[], "RESUMEN".toList, " ".toList, "12".toList, [],
        by decide, by decide, by decide, by decide, by decide, by decide,
        by decide, Or.inl rfl, by decide, by decide⟩
  · exact C1_admin_grammar.2.2.1 _ ⟨AdminVerb.summary, 12, none⟩ (by decide)

lemma mem_mark_greeted (s : Str) (g : List Str) : s ∈ mark_greeted s g := by
  unfold mark_greeted
  split
  · assumption
  · exact List.mem_cons_self s g

/-- **C2.** Modelled from the spec (the `GreetedSet` is absent from
`src/`): after the orchestrator handles a non-duplicate text message
classified as a Greeting, the sender belongs to the `GreetedSet` — for
every environment, so whether or not the client lookup finds the client —
and on the Duplicate-Filter path the `GreetedSet` is untouched (the filter
mutates only the dedup deque; the orchestrator is the sole mutator of the
greeted state). -/
theorem C2_greeting_marks_greeted :
    (∀ (env : SpecEnv) (st : SpecState) (m : SpecMsg),
      (is_duplicate_message st.dedup m.id).1 = false →
      m.isText = true →
      classify_spec m.body = IntentSpec.greeting →
      m.sender ∈ ((handle_spec env st m).1).greeted) ∧
    (∀ (env : SpecEnv) (st : SpecState) (m : SpecMsg),
      (is_duplicate_message st.dedup m.id).1 = true →
      ((handle_spec env st m).1).greeted = st.greeted ∧
      (handle_spec env st m).2 = []) := by
  constructor
  · intro env st m hdup htext hcls
    have hemp : (trimL m.body).isEmpty = false := by
      rw [Bool.eq_false_iff]
      intro he
      unfold classify_spec at hcls
      rw [if_pos he] at hcls
      exact IntentSpec.noConfusion hcls
    unfold handle_spec
    simp only [hdup, htext, hemp, hcls]
    exact mem_mark_greeted m.sender st.greeted
  · intro env st m hdup
    unfold handle_spec
    simp only [hdup]
    exact ⟨rfl, rfl⟩

/-- An inert spec-model environment (no known clients). -/
def spec_env0 : SpecEnv :=
  ⟨fun _ => none, [], fun _ => "resumen".toList, fun _ => "ok".toList,
   fun _ => "ok".toList, "ayuda".toList⟩

/-- A spec-model environment that knows every client. -/
def spec_env1 : SpecEnv :=
  ⟨fun _ => some "Ana".toList, [], fun _ => "resumen".toList,
   fun _ => "ok".toList, fun _ => "ok".toList, "ayuda".toList⟩

/-- A concrete greeting message in the spec model. -/
def spec_msg_hola : SpecMsg :=
  ⟨some "id1".toList, true, "user1".toList, "Hola!".toList⟩

/-- Witness for C2: both the found and the not-found lookup mark the
sender greeted. -/
theorem C2_greeting_marks_greeted_witness :
    "user1".toList ∈
      ((handle_spec spec_env0 ⟨[], []⟩ spec_msg_hola).1).greeted ∧
    "user1".toList ∈
      ((handle_spec spec_env1 ⟨[], []⟩ spec_msg_hola).1).greeted :=
  ⟨C2_greeting_marks_greeted.1 spec_env0 ⟨[], []⟩ spec_msg_hola
      (by decide) rfl (by decide),
   C2_greeting_marks_greeted.1 spec_env1 ⟨[], []⟩ spec_msg_hola
      (by decide) rfl (by decide)⟩
